import Mathlib

/-!
Shallow embedding of the repair-ticket backend (two services:
`RepairsService` in `src/repairs` and `AuthService` in `src/auth`).

JavaScript values are embedded as follows:
* an optional field that the code tests with `!== undefined` and that may
  carry an explicit `null` is `Option (Option τ)`: `none` = absent
  (`undefined`), `some none` = explicit `null`, `some (some v)` = a value;
* an optional field only ever tested for truthiness is `Option τ` when the
  falsy values collapse (helpers `jsOrNull`, `jsNumTruthy`, `jsBoolTruthy`
  express JS truthiness for strings, numbers and booleans);
* dates are `Nat` timestamps; a `Date` object is always truthy in JS, so a
  present date is truthy regardless of its value;
* thrown exceptions are `Except` errors; external collaborators
  (Cloudinary upload, LINE OAuth exchange/profile, bcrypt, JWT signing)
  are oracle function parameters;
* the relational store is an explicit record of row lists, threaded
  through the stateful operations.  The Prisma schema itself is not under
  `src/`; the row shapes are modelled from the spec's data-model section
  (§3) and from the fields the service code reads and writes.
-/

namespace RepairShop

/-- Ticket status enum (`RepairTicketStatus` in the Prisma client). -/
inductive RepairTicketStatus
  | PENDING
  | IN_PROGRESS
  | WAITING_PARTS
  | COMPLETED
  | CANCELLED
  deriving DecidableEq, Repr

/-- Modelled from the spec: urgency enum on a ticket (§3); only `NORMAL`
appears literally in `src` (as the default in `create`). -/
inductive UrgencyLevel
  | LOW
  | NORMAL
  | HIGH
  | URGENT
  deriving DecidableEq, Repr

/-- User role enum (spec §3: USER/ADMIN; `'USER'` appears literally in src). -/
inductive Role
  | USER
  | ADMIN
  deriving DecidableEq, Repr

/-- NestJS HTTP exceptions thrown by the services. -/
inductive HttpError
  | badRequest (msg : String)
  | unauthorized (msg : String)
  | notFoundErr (msg : String)
  deriving DecidableEq, Repr

/-- Errors of the auth service: HTTP exceptions, re-thrown provider
(external collaborator) errors, and re-thrown raw store errors. -/
inductive AppError
  | http (e : HttpError)
  | provider (msg : String)
  | db (code : String)
  deriving DecidableEq, Repr

/-- JS truthiness for an optional string collapsed to present-or-null:
`undefined`, `null` and `""` are falsy; `s || null` yields `null` exactly
on those. -/
def jsOrNull : Option String → Option String
  | some s => if s = "" then none else some s
  | none => none

/-- JS truthiness of an optional number (`0` is falsy). -/
def jsNumTruthy : Option Nat → Bool
  | some n => n != 0
  | none => false

/-- JS truthiness of an optional boolean. -/
def jsBoolTruthy : Option Bool → Bool
  | some b => b
  | none => false

/-! ## Repairs service: files and attachments -/

/-- An uploaded multipart file as the service reads it
(`Express.Multer.File`: `originalname`, `mimetype`, `size`; the byte
buffer only flows to the external upload collaborator). -/
structure MulterFile where
  originalname : String
  mimetype : String
  size : Nat
  deriving DecidableEq, Repr

def ALLOWED_MIME_TYPES : List String :=
  ["image/jpeg", "image/png", "image/gif", "image/webp"]

def MAX_FILE_SIZE : Nat := 5 * 1024 * 1024

/-- Embeds `sanitizeFilename`: `path.basename` then replace every character
outside `[a-zA-Z0-9.-]` with `_`. -/
def sanitizeFilename (filename : String) : String :=
  let basename := (filename.splitOn "/").getLastD filename
  String.map (fun c => if c.isAlphanum || c == '.' || c == '-' then c else '_') basename

/-- An attachment row as assembled into `attachmentData` by `create`. -/
structure AttachmentData where
  filename : String
  fileUrl : String
  fileSize : Nat
  mimeType : String
  deriving DecidableEq, Repr

/-- A file passes `create`'s security validations: allowed MIME type and
size not exceeding 5MB (`create` rejects `size > MAX_FILE_SIZE`). -/
def fileValid (f : MulterFile) : Bool :=
  ALLOWED_MIME_TYPES.contains f.mimetype && f.size ≤ MAX_FILE_SIZE

/-- The per-file loop of `RepairsService.create`.  `upload` is the
external Cloudinary collaborator: `some url` is a successful upload,
`none` a thrown upload error (which the loop catches, logs and skips —
only `BadRequestException`s from the two validations are re-thrown and
abort the whole call). -/
def processFiles (upload : MulterFile → Option String) :
    List MulterFile → Except HttpError (List AttachmentData)
  | [] => .ok []
  | f :: rest =>
    if ¬ ALLOWED_MIME_TYPES.contains f.mimetype then
      .error (.badRequest ("Invalid file type: " ++ f.mimetype ++ ". Only images are allowed."))
    else if f.size > MAX_FILE_SIZE then
      .error (.badRequest "File size exceeds 5MB limit")
    else
      match upload f with
      | none => processFiles upload rest
      | some url =>
        (processFiles upload rest).map
          (fun as =>
            { filename := sanitizeFilename f.originalname
              fileUrl := url
              fileSize := f.size
              mimeType := f.mimetype } :: as)

/-! ## Repairs service: ticket rows and DTOs -/

/-- A `RepairTicket` row together with its nested attachment rows.
Field shapes are modelled from the spec's data model (§3) and from the
writes performed in `create`, `update` and `remove`; `assignedTo` is the
column targeted by `findAll`'s assignee filter (spec §4.1), not written
anywhere in src. -/
structure TicketRow where
  id : Nat
  ticketCode : String
  reporterName : String
  reporterDepartment : Option String
  reporterPhone : Option String
  reporterLineId : Option String
  problemCategory : String
  problemTitle : String
  problemDescription : Option String
  location : String
  urgency : UrgencyLevel
  status : RepairTicketStatus
  userId : Nat
  notes : Option String
  scheduledAt : Option Nat
  completedAt : Option Nat
  cancelledAt : Option Nat
  createdAt : Nat
  assignedTo : Option Nat
  attachments : List AttachmentData
  deriving DecidableEq, Repr

/-- A row of the `RepairTicketAssignee` junction table. -/
structure AssigneeRow where
  repairTicketId : Nat
  userId : Nat
  deriving DecidableEq, Repr

/-- The slice of the relational store the repairs service touches.
`userIds` stands for the user table's primary keys, used only for the
foreign-key check on assignee inserts (spec §6: FK violations are
pattern-matched into domain errors). -/
structure RepairsStore where
  tickets : List TicketRow
  assignees : List AssigneeRow
  userIds : List Nat
  deriving DecidableEq, Repr

/-- The create DTO as `create` reads it (`dto` is untyped in src; the
fields are the ones the method accesses).  `scheduledAt` keeps the
undefined/null/value distinction, though `create` only tests truthiness. -/
structure CreateDto where
  reporterName : String
  reporterDepartment : Option String := none
  reporterPhone : Option String := none
  reporterLineId : Option String := none
  problemCategory : String
  problemTitle : String
  problemDescription : Option String := none
  location : String
  urgency : Option UrgencyLevel := none
  notes : Option String := none
  scheduledAt : Option (Option Nat) := none
  deriving Repr

namespace RepairsService

/-- Embeds `RepairsService.create`.  `now` is the clock (`Date.now()` for the
ticket code, `new Date()` defaults); `newId` the id the store assigns;
`upload` the external upload collaborator.  New tickets get status
`PENDING` (modelled from the spec: §3 status enum starts at PENDING and
`create` writes no status, leaving the store default). -/
def create (upload : MulterFile → Option String) (now newId : Nat)
    (userId : Nat) (dto : CreateDto) (files : List MulterFile) :
    Except HttpError TicketRow :=
  match processFiles upload files with
  | .error e => .error e
  | .ok attachmentData =>
    .ok {
      id := newId
      ticketCode := "REP-" ++ toString now
      reporterName := dto.reporterName
      reporterDepartment := jsOrNull dto.reporterDepartment
      reporterPhone := jsOrNull dto.reporterPhone
      reporterLineId := jsOrNull dto.reporterLineId
      problemCategory := dto.problemCategory
      problemTitle := dto.problemTitle
      problemDescription := jsOrNull dto.problemDescription
      location := dto.location
      urgency := dto.urgency.getD UrgencyLevel.NORMAL
      status := RepairTicketStatus.PENDING
      userId := userId
      notes := jsOrNull dto.notes
      scheduledAt := some (match dto.scheduledAt with
        | some (some d) => d
        | _ => now)
      completedAt := none
      cancelledAt := none
      createdAt := now
      assignedTo := none
      attachments := attachmentData }

/-- The update DTO as `update` reads it (`dto` is untyped in src).
Fields checked with `!== undefined` and whose column is nullable keep the
undefined/null/value distinction (`Option (Option τ)`); the date fields
keep it too because the counterpart claims need it; `status`, `urgency`,
`problemTitle` and `location` target non-nullable columns, so a present
value is a proper value. -/
structure UpdateDto where
  status : Option RepairTicketStatus := none
  notes : Option (Option String) := none
  scheduledAt : Option (Option Nat) := none
  completedAt : Option (Option Nat) := none
  problemTitle : Option String := none
  problemDescription : Option (Option String) := none
  location : Option String := none
  urgency : Option UrgencyLevel := none
  assigneeIds : Option (List Nat) := none
  deriving Repr

/-- The `updateData` construction of `RepairsService.update` applied to a
stored row: `status`, `notes`, `problemTitle`, `problemDescription`,
`location`, `urgency` are included when `!== undefined`; the two dates
only when truthy (a JS `Date` object is truthy, `null`/`undefined` are
not). -/
def applyUpdateData (dto : UpdateDto) (t : TicketRow) : TicketRow :=
  { t with
    status := dto.status.getD t.status
    notes := match dto.notes with
      | some v => v
      | none => t.notes
    scheduledAt := match dto.scheduledAt with
      | some (some d) => some d
      | _ => t.scheduledAt
    completedAt := match dto.completedAt with
      | some (some d) => some d
      | _ => t.completedAt
    problemTitle := dto.problemTitle.getD t.problemTitle
    problemDescription := match dto.problemDescription with
      | some v => v
      | none => t.problemDescription
    location := dto.location.getD t.location
    urgency := dto.urgency.getD t.urgency }

/-- Embeds `RepairsService.update`.  Returns the (possibly partially mutated)
store together with the outcome: the assignee delete/recreate runs
before the ticket update and outside any transaction, so a failure after
the delete leaves the delete in place (spec §5).  A `createMany` hitting
a missing ticket or user id is the store's FK violation `P2003`,
translated to a `BadRequestException`; a ticket update on a missing id is
`P2025`, translated to `NotFoundException`. -/
def update (s : RepairsStore) (id : Nat) (dto : UpdateDto) :
    RepairsStore × Except HttpError TicketRow :=
  let afterSync : RepairsStore × Option HttpError :=
    match dto.assigneeIds with
    | none => (s, none)
    | some ids =>
      let s1 := { s with assignees := s.assignees.filter (fun a => a.repairTicketId != id) }
      if ids.isEmpty then (s1, none)
      else if s1.tickets.any (fun t => t.id == id) && ids.all (fun uid => s1.userIds.contains uid) then
        ({ s1 with assignees := s1.assignees ++ ids.map (fun uid => ⟨id, uid⟩) }, none)
      else
        (s1, some (.badRequest "ข้อมูลอ้างอิงไม่ถูกต้อง (เช่น ผู้รับผิดชอบไม่มีอยู่ในระบบ)"))
  match afterSync with
  | (s1, some e) => (s1, .error e)
  | (s1, none) =>
    match s1.tickets.find? (fun t => t.id == id) with
    | none => (s1, .error (.notFoundErr ("Repair ticket #" ++ toString id ++ " not found")))
    | some t =>
      let t' := applyUpdateData dto t
      ({ s1 with tickets := s1.tickets.map (fun u => if u.id == id then t' else u) }, .ok t')

/-- The parameters of `RepairsService.findAll`, all optional in src. -/
structure FindAllParams where
  userId : Option Nat := none
  isAdmin : Option Bool := none
  status : Option RepairTicketStatus := none
  urgency : Option UrgencyLevel := none
  assignedTo : Option Nat := none
  limit : Option Nat := none
  deriving Repr

/-- The Prisma `where` object `findAll` assembles. -/
structure WhereClause where
  userId : Option Nat := none
  status : Option RepairTicketStatus := none
  urgency : Option UrgencyLevel := none
  assignedTo : Option Nat := none
  deriving DecidableEq, Repr

/-- Embeds `findAll`'s query construction: the owner filter is added only when
`!isAdmin && userId` is truthy (a `0` or missing `userId` skips it); each
remaining filter is added when truthy (an enum value, being a non-empty
string, is truthy whenever present). -/
def buildWhere (p : FindAllParams) : WhereClause :=
  let w0 : WhereClause := {}
  let w1 := if !(jsBoolTruthy p.isAdmin) && jsNumTruthy p.userId then
    { w0 with userId := p.userId } else w0
  let w2 := match p.status with
    | some st => { w1 with status := some st }
    | none => w1
  let w3 := match p.urgency with
    | some u => { w2 with urgency := some u }
    | none => w2
  if jsNumTruthy p.assignedTo then { w3 with assignedTo := p.assignedTo } else w3

/-- A row matches the assembled `where` object. -/
def matchesWhere (w : WhereClause) (t : TicketRow) : Bool :=
  (match w.userId with
    | some u => t.userId == u
    | none => true) &&
  (match w.status with
    | some st => t.status == st
    | none => true) &&
  (match w.urgency with
    | some u => t.urgency == u
    | none => true) &&
  (match w.assignedTo with
    | some a => t.assignedTo == some a
    | none => true)

/-- Embeds `RepairsService.findAll`: filter by the assembled `where`, cap with
`take` when a limit is supplied.  The reverse-chronological `orderBy` is
presentational and not modelled (no claim concerns ordering). -/
def findAll (s : RepairsStore) (p : FindAllParams) : List TicketRow :=
  let filtered := s.tickets.filter (matchesWhere (buildWhere p))
  match p.limit with
  | some n => filtered.take n
  | none => filtered

/-- Number of tickets with a given status (`_count.status` of one group). -/
def statusCount (ts : List TicketRow) (st : RepairTicketStatus) : Nat :=
  ((ts.map (fun t => t.status)).count st)

/-- The store's `groupBy(['status'], _count.status)`: one entry per
distinct status occurring in the table, with its count. -/
def groupByStatus (ts : List TicketRow) : List (RepairTicketStatus × Nat) :=
  ((ts.map (fun t => t.status)).dedup).map
    (fun st => (st, (ts.map (fun t => t.status)).count st))

/-- The record `getStatistics` returns. -/
structure Statistics where
  total : Nat
  pending : Nat
  inProgress : Nat
  waitingParts : Nat
  completed : Nat
  cancelled : Nat
  deriving DecidableEq, Repr

/-- Embeds `RepairsService.getStatistics`: `total` is the `reduce` over the
groups; each named count is `find` over the groups with default `0`. -/
def getStatistics (s : RepairsStore) : Statistics :=
  let stats := groupByStatus s.tickets
  let total := stats.foldl (fun acc curr => acc + curr.2) 0
  let getCount := fun (st : RepairTicketStatus) =>
    match stats.find? (fun c => c.1 == st) with
    | some c => c.2
    | none => 0
  { total := total
    pending := getCount RepairTicketStatus.PENDING
    inProgress := getCount RepairTicketStatus.IN_PROGRESS
    waitingParts := getCount RepairTicketStatus.WAITING_PARTS
    completed := getCount RepairTicketStatus.COMPLETED
    cancelled := getCount RepairTicketStatus.CANCELLED }

end RepairsService

/-! ## Auth service -/

/-- A `User` row (spec §3: identity record; field shapes from the reads
and writes in `AuthService`). `password` holds the bcrypt hash. -/
structure UserRow where
  id : Nat
  name : String
  email : String
  password : String
  role : Role
  department : Option String
  phoneNumber : Option String
  lineId : Option String
  createdAt : Nat
  deriving DecidableEq, Repr

/-- A `LineOALink` row: the provider link between a user and a LINE
user id, with a verification status (spec §3). -/
structure LineLinkRow where
  userId : Nat
  lineUserId : String
  status : String
  deriving DecidableEq, Repr

/-- The slice of the relational store the auth service touches.
`nextUserId` models the store's id assignment for inserted users. -/
structure AuthStore where
  users : List UserRow
  links : List LineLinkRow
  nextUserId : Nat
  deriving DecidableEq, Repr

structure LoginDto where
  email : String
  password : String
  deriving DecidableEq, Repr

/-- The token-bearing response shape shared by `login` and
`lineCallback`. -/
structure LoginResult where
  access_token : String
  userId : Nat
  role : Role
  message : String
  deriving DecidableEq, Repr

namespace AuthService

/-- Embeds `AuthService.login`.  `compare` is the bcrypt comparison oracle
(`bcrypt.compare plain hash`); `sign` the JWT signing oracle over the
payload `{sub, role}`.  `findUnique` on the unique email column is
`find?`. -/
def login (compare : String → String → Bool) (sign : Nat → Role → String)
    (s : AuthStore) (dto : LoginDto) : Except HttpError LoginResult :=
  match s.users.find? (fun u => u.email == dto.email) with
  | none => .error (.unauthorized "Email or password incorrect")
  | some user =>
    if compare dto.password user.password then
      .ok { access_token := sign user.id user.role
            userId := user.id
            role := user.role
            message := "Login success" }
    else
      .error (.unauthorized "Email or password incorrect")

/-- The provider token exchange response (`{access_token, user_id}`). -/
structure TokenResponse where
  access_token : String
  user_id : String
  deriving DecidableEq, Repr

/-- The external collaborators and ambient values `lineCallback` uses:
the OAuth exchange and profile calls (an `Except.error` is a thrown
collaborator error, re-thrown by the service), the bcrypt hash of the
random password, the JWT signing oracle and the clock. -/
structure CallbackEnv where
  exchange : String → Except String TokenResponse
  profile : String → Except String (Option String)
  hashRandom : String
  sign : Nat → Role → String
  now : Nat

/-- Embeds `AuthService.lineCallback`.  `code` is the query parameter, possibly
missing (`none`) or empty — both falsy, guarded before anything else.
Returns the store (threaded through the user create/update) and the
outcome.  `findFirst` on the relation filter `lineOALink.lineUserId` is
the first user having a matching link row. -/
def lineCallback (env : CallbackEnv) (s : AuthStore) (code : Option String) :
    AuthStore × Except AppError LoginResult :=
  if jsOrNull code = none then
    (s, .error (.http (.badRequest "Authorization code is required")))
  else
    match env.exchange (code.getD "") with
    | .error m => (s, .error (.provider m))
    | .ok tok =>
      let lineUserId := tok.user_id
      match s.users.find? (fun u =>
          s.links.any (fun l => l.userId == u.id && l.lineUserId == lineUserId)) with
      | none =>
        match env.profile tok.access_token with
        | .error m => (s, .error (.provider m))
        | .ok displayName =>
          let newUser : UserRow := {
            id := s.nextUserId
            name := (jsOrNull displayName).getD "LINE User"
            email := "line_" ++ lineUserId ++ "@line.com"
            password := env.hashRandom
            role := Role.USER
            department := none
            phoneNumber := none
            lineId := some lineUserId
            createdAt := env.now }
          let s' : AuthStore := {
            users := s.users ++ [newUser]
            links := s.links ++ [⟨newUser.id, lineUserId, "VERIFIED"⟩]
            nextUserId := s.nextUserId + 1 }
          (s', .ok { access_token := env.sign newUser.id newUser.role
                     userId := newUser.id
                     role := newUser.role
                     message := "LOGIN success via LINE" })
      | some user =>
        let user' := if jsOrNull user.lineId = none then
            { user with lineId := some lineUserId }
          else user
        let s' := if jsOrNull user.lineId = none then
            { s with users := s.users.map (fun v => if v.id == user.id then user' else v) }
          else s
        (s', .ok { access_token := env.sign user'.id user'.role
                   userId := user'.id
                   role := user'.role
                   message := "LOGIN success via LINE" })

/-- The `updateProfile` body: the four spreads `...(data.f && {f: data.f})`
include a field exactly when its value is truthy (a non-empty string). -/
structure UpdateProfileDto where
  name : Option String := none
  department : Option String := none
  phoneNumber : Option String := none
  lineId : Option String := none
  deriving Repr

/-- Embeds `AuthService.updateProfile`.  An update on a missing id raises the
store's `P2025` error, not caught here (it propagates raw). -/
def updateProfile (s : AuthStore) (userId : Nat) (d : UpdateProfileDto) :
    AuthStore × Except AppError UserRow :=
  match s.users.find? (fun u => u.id == userId) with
  | none => (s, .error (.db "P2025"))
  | some u =>
    let u' : UserRow := { u with
      name := (jsOrNull d.name).getD u.name
      department := match jsOrNull d.department with
        | some v => some v
        | none => u.department
      phoneNumber := match jsOrNull d.phoneNumber with
        | some v => some v
        | none => u.phoneNumber
      lineId := match jsOrNull d.lineId with
        | some v => some v
        | none => u.lineId }
    ({ s with users := s.users.map (fun v => if v.id == userId then u' else v) }, .ok u')

end AuthService

/-! ## Concrete fixtures used by witnesses and counterexamples -/

/-- Outcome test: the call failed with a `BadRequestException`. -/
def isBadRequestE {α : Type} : Except HttpError α → Bool
  | .error (.badRequest _) => true
  | _ => false

def dummyTicket : TicketRow := {
  id := 0, ticketCode := "", reporterName := "", reporterDepartment := none,
  reporterPhone := none, reporterLineId := none, problemCategory := "",
  problemTitle := "", problemDescription := none, location := "",
  urgency := UrgencyLevel.NORMAL, status := RepairTicketStatus.PENDING,
  userId := 0, notes := none, scheduledAt := none, completedAt := none,
  cancelledAt := none, createdAt := 0, assignedTo := none, attachments := [] }

def sampleCreateDto : CreateDto := {
  reporterName := "R", problemCategory := "IT", problemTitle := "Broken", location := "B1" }

/-- Upload collaborator that always fails (error caught and skipped). -/
def uplNone : MulterFile → Option String := fun _ => none

/-- Upload collaborator that always succeeds. -/
def uplOk : MulterFile → Option String := fun _ => some "https://cdn/x"

def goodFile : MulterFile := { originalname := "a.png", mimetype := "image/png", size := 100 }

def badFile : MulterFile := { originalname := "a.txt", mimetype := "text/plain", size := 100 }

/-- The ticket produced by a concrete `create` call with no files. -/
def createdW : TicketRow :=
  ((RepairsService.create uplNone 42 1 7 sampleCreateDto []).toOption).getD dummyTicket

/-- A stored ticket with a set completion date, for the update claims. -/
def tW : TicketRow := { dummyTicket with
  id := 1, ticketCode := "REP-1", reporterName := "R", problemCategory := "IT",
  problemTitle := "Old title", location := "B1", userId := 4,
  notes := some "old note", scheduledAt := some 3, completedAt := some 5, createdAt := 2 }

def w2 : RepairsStore := { tickets := [tW], assignees := [], userIds := [4] }

/-- An update DTO exercising present, explicitly-null and absent fields. -/
def dtoW : RepairsService.UpdateDto := {
  status := some RepairTicketStatus.IN_PROGRESS
  notes := some none
  scheduledAt := some (some 9)
  problemTitle := some "New title"
  problemDescription := some (some "PD")
  urgency := some UrgencyLevel.HIGH }

/-- The ticket returned by the concrete `update` call on `w2`. -/
def t2W : TicketRow :=
  (((RepairsService.update w2 1 dtoW).2).toOption).getD dummyTicket

def w4 : RepairsStore := {
  tickets := [{ tW with id := 1 }, { tW with id := 2 }]
  assignees := [⟨1, 5⟩, ⟨2, 7⟩]
  userIds := [4, 5, 7, 9] }

def w3 : RepairsStore := { tickets := [{ tW with id := 1, userId := 1 }], assignees := [], userIds := [1] }

def sampleUser : UserRow := {
  id := 1, name := "Alice", email := "alice@example.com", password := "hashA",
  role := Role.USER, department := none, phoneNumber := none, lineId := none, createdAt := 0 }

def sampleAuthStore : AuthStore := { users := [sampleUser], links := [], nextUserId := 2 }

/-- An auth store where user 3 is already linked to LINE id `LU1`. -/
def linkedUser : UserRow := { sampleUser with id := 3, email := "bob@example.com", lineId := some "LU1" }

def linkedStore : AuthStore :=
  { users := [linkedUser], links := [⟨3, "LU1", "VERIFIED"⟩], nextUserId := 4 }

def envW : AuthService.CallbackEnv := {
  exchange := fun _ => .ok { access_token := "tok", user_id := "LU1" }
  profile := fun _ => .ok none
  hashRandom := "h"
  sign := fun _ _ => "jwt"
  now := 0 }

def profDtoW : AuthService.UpdateProfileDto :=
  { name := some "New Name", department := some "", lineId := some "L9" }

/-- The user row returned by the concrete `updateProfile` call. -/
def profUserW : UserRow :=
  (((AuthService.updateProfile sampleAuthStore 1 profDtoW).2).toOption).getD sampleUser

/-! ## Theorems -/

/-- C10: an OAuth callback invoked with a missing or empty authorization
code raises a bad-request error before any call to the external OAuth
collaborator or to the data store: the result is the same for every
collaborator environment, and the store is returned unchanged. -/
theorem lineCallback_missing_code_rejected (env : AuthService.CallbackEnv) (s : AuthStore) :
    AuthService.lineCallback env s none
      = (s, .error (.http (.badRequest "Authorization code is required")))
    ∧ AuthService.lineCallback env s (some "")
      = (s, .error (.http (.badRequest "Authorization code is required"))) :=
  ⟨rfl, rfl⟩

/-- C5: login with an unregistered email and login with a registered
email but wrong password fail with the identical generic error. -/
theorem login_failure_paths_identical
    (compare : String → String → Bool) (sign : Nat → Role → String)
    (s : AuthStore) (d1 d2 : LoginDto) (u : UserRow)
    (h1 : s.users.find? (fun v => v.email == d1.email) = none)
    (h2 : s.users.find? (fun v => v.email == d2.email) = some u)
    (h3 : compare d2.password u.password = false) :
    AuthService.login compare sign s d1 = .error (.unauthorized "Email or password incorrect")
    ∧ AuthService.login compare sign s d2 = .error (.unauthorized "Email or password incorrect") := by
  unfold AuthService.login
  rw [h1, h2]
  simp [h3]

/-- Witness for C5 at a concrete store: `bob@` is unregistered, `alice@`
is registered and the bcrypt comparison rejects the password. -/
theorem login_failure_paths_identical_witness :
    AuthService.login (fun _ _ => false) (fun _ _ => "jwt") sampleAuthStore ⟨"bob@example.com", "pw"⟩
      = .error (.unauthorized "Email or password incorrect")
    ∧ AuthService.login (fun _ _ => false) (fun _ _ => "jwt") sampleAuthStore ⟨"alice@example.com", "pw"⟩
      = .error (.unauthorized "Email or password incorrect") :=
  login_failure_paths_identical (fun _ _ => false) (fun _ _ => "jwt") sampleAuthStore
    ⟨"bob@example.com", "pw"⟩ ⟨"alice@example.com", "pw"⟩ sampleUser (by decide) (by decide) rfl

/-- C9: a create call whose `scheduledAt` is absent or falsy persists the
creation time as the ticket's `scheduledAt`; it is never left null. -/
theorem create_defaults_scheduledAt
    (upload : MulterFile → Option String) (now newId userId : Nat)
    (dto : CreateDto) (files : List MulterFile) (t : TicketRow)
    (hfalsy : dto.scheduledAt = none ∨ dto.scheduledAt = some none)
    (hok : RepairsService.create upload now newId userId dto files = .ok t) :
    t.scheduledAt = some now := by
  unfold RepairsService.create at hok
  cases hpf : processFiles upload files with
  | error e => rw [hpf] at hok; cases hok
  | ok l =>
    rw [hpf] at hok
    cases hok
    rcases hfalsy with h | h <;> simp [h]

/-- Witness for C9: a concrete create call with no `scheduledAt` yields
`scheduledAt = some 42` where `42` is the clock value. -/
theorem create_defaults_scheduledAt_witness : createdW.scheduledAt = some 42 :=
  create_defaults_scheduledAt uplNone 42 1 7 sampleCreateDto [] createdW (Or.inl rfl) rfl

/-- When every file passes validation, the upload loop succeeds and
collects one attachment per file whose upload call succeeded. -/
theorem processFiles_all_valid (upload : MulterFile → Option String) (files : List MulterFile)
    (h : files.all fileValid = true) :
    ∃ l, processFiles upload files = .ok l
      ∧ l.length = (files.filter (fun f => (upload f).isSome)).length := by
  induction files with
  | nil => exact ⟨[], rfl, rfl⟩
  | cons f rest ih =>
    rw [List.all_cons, Bool.and_eq_true] at h
    obtain ⟨hf, hrest⟩ := h
    simp only [fileValid, Bool.and_eq_true] at hf
    obtain ⟨hmime, hsize⟩ := hf
    have hmem : f.mimetype ∈ ALLOWED_MIME_TYPES := by simpa using hmime
    obtain ⟨l, hpf, hlen⟩ := ih hrest
    have hsize' : ¬ f.size > MAX_FILE_SIZE := by
      have := of_decide_eq_true hsize
      omega
    cases hup : upload f with
    | none =>
      refine ⟨l, ?_, ?_⟩
      · simp [processFiles, hmem, hsize', hup, hpf]
      · rw [hlen, List.filter_cons]
        simp [hup]
    | some url =>
      refine ⟨{ filename := sanitizeFilename f.originalname, fileUrl := url,
                fileSize := f.size, mimeType := f.mimetype } :: l, ?_, ?_⟩
      · simp [processFiles, hmem, hsize', hup, hpf, Except.map]
      · rw [List.filter_cons]
        simp [hup, hlen]

/-- When some file fails validation, the upload loop aborts the whole
call with a `BadRequestException`. -/
theorem processFiles_some_invalid (upload : MulterFile → Option String) (files : List MulterFile)
    (h : files.all fileValid = false) :
    isBadRequestE (processFiles upload files) = true := by
  induction files with
  | nil => simp at h
  | cons f rest ih =>
    rw [List.all_cons] at h
    by_cases hf : fileValid f = true
    · have hrest : rest.all fileValid = false := by
        rw [hf] at h
        simpa using h
      simp only [fileValid, Bool.and_eq_true] at hf
      obtain ⟨hmime, hsize⟩ := hf
      have hmem : f.mimetype ∈ ALLOWED_MIME_TYPES := by simpa using hmime
      have hsize' : ¬ f.size > MAX_FILE_SIZE := by
        have := of_decide_eq_true hsize
        omega
      have hb := ih hrest
      cases hup : upload f with
      | none => simpa [processFiles, hmem, hsize', hup] using hb
      | some url =>
        simp only [processFiles, hmem, hsize', hup, if_true, if_false]
        cases hpf : processFiles upload rest with
        | error e =>
          rw [hpf] at hb
          simpa [isBadRequestE, Except.map, hmem, hsize', hpf] using hb
        | ok l =>
          rw [hpf] at hb
          simp [isBadRequestE] at hb
    · simp only [fileValid, Bool.and_eq_true, not_and] at hf
      by_cases hmime : ALLOWED_MIME_TYPES.contains f.mimetype = true
      · have hmem : f.mimetype ∈ ALLOWED_MIME_TYPES := by simpa using hmime
        have hsz := hf hmime
        have hsize : f.size > MAX_FILE_SIZE := by
          rcases Nat.lt_or_ge MAX_FILE_SIZE f.size with hlt | hge
          · exact hlt
          · exact absurd (decide_eq_true hge) hsz
        simp [processFiles, hmem, hsize, isBadRequestE]
      · have hmem : f.mimetype ∉ ALLOWED_MIME_TYPES := by simpa using hmime
        simp [processFiles, hmem, isBadRequestE]

/-- C1 (amended): if every file passes validation (allowed MIME type and
size at most 5MB), create succeeds and the ticket has exactly one
attachment per file whose external upload call succeeded (upload
failures are logged and skipped); if any file fails validation, the
whole call fails with a client (bad-request) error. -/
theorem create_attachment_outcome (upload : MulterFile → Option String)
    (now newId userId : Nat) (dto : CreateDto) (files : List MulterFile) :
    (files.all fileValid = true →
      (RepairsService.create upload now newId userId dto files).map (fun t => t.attachments.length)
        = .ok ((files.filter (fun f => (upload f).isSome)).length))
    ∧ (files.all fileValid = false →
      isBadRequestE (RepairsService.create upload now newId userId dto files) = true) := by
  constructor
  · intro h
    obtain ⟨l, hpf, hlen⟩ := processFiles_all_valid upload files h
    unfold RepairsService.create
    rw [hpf]
    simp [Except.map, hlen]
  · intro h
    have hbad := processFiles_some_invalid upload files h
    unfold RepairsService.create
    cases hpf : processFiles upload files with
    | error e =>
      rw [hpf] at hbad
      cases e with
      | badRequest m => rfl
      | unauthorized m => simp [isBadRequestE] at hbad
      | notFoundErr m => simp [isBadRequestE] at hbad
    | ok l => rw [hpf] at hbad; simp [isBadRequestE] at hbad

/-- Witness for C1 (amended): one all-valid call succeeds with the
upload-success count; one call containing an invalid file fails with a
bad request. -/
theorem create_attachment_outcome_witness :
    ((RepairsService.create uplOk 1 2 3 sampleCreateDto [goodFile]).map
        (fun t => t.attachments.length)
      = .ok (([goodFile].filter (fun f => (uplOk f).isSome)).length))
    ∧ isBadRequestE (RepairsService.create uplOk 1 2 3 sampleCreateDto [goodFile, badFile]) = true :=
  ⟨(create_attachment_outcome uplOk 1 2 3 sampleCreateDto [goodFile]).1 rfl,
   (create_attachment_outcome uplOk 1 2 3 sampleCreateDto [goodFile, badFile]).2 rfl⟩

/-- Counterexample for C1 as stated: a create call with one valid file
(N = 1) and one file failing MIME validation (M = 1) does not succeed
with one attachment — it fails with the validation's bad-request error,
because the catch block re-throws `BadRequestException`s. -/
theorem create_invalid_file_fatal_cex :
    RepairsService.create uplOk 1 2 3 sampleCreateDto [goodFile, badFile]
      = .error (.badRequest "Invalid file type: text/plain. Only images are allowed.") := by
  rfl

/-- A successful `update` returns the found row with `updateData`
applied. -/
theorem update_ok_applyUpdateData (s : RepairsStore) (id : Nat)
    (dto : RepairsService.UpdateDto) (t t' : TicketRow)
    (hfind : s.tickets.find? (fun x => x.id == id) = some t)
    (hok : (RepairsService.update s id dto).2 = .ok t') :
    t' = RepairsService.applyUpdateData dto t := by
  unfold RepairsService.update at hok
  rcases hA : dto.assigneeIds with _ | ids <;> rw [hA] at hok
  · simp only [hfind] at hok
    exact (Except.ok.inj hok).symm
  · by_cases hE : ids.isEmpty
    · simp only [hE, if_true, hfind] at hok
      exact (Except.ok.inj hok).symm
    · by_cases hC : (s.tickets.any (fun x => x.id == id)
          && ids.all (fun uid => s.userIds.contains uid)) = true
      · simp only [hE, Bool.false_eq_true, if_false, hC, if_true, hfind] at hok
        exact (Except.ok.inj hok).symm
      · simp only [hE, Bool.false_eq_true, if_false, hC, hfind] at hok
        cases hok

/-- C2 (amended): a successful update applies exactly the fields present
in the request: for `status`, `notes`, `problemTitle`,
`problemDescription`, `location` and `urgency` any present value is
applied (for the nullable `notes` and `problemDescription` this includes
an explicit null) and an absent field leaves the stored value unchanged;
for `scheduledAt` and `completedAt` only a truthy (non-null) date is
applied — an explicit null is ignored exactly like absence, so absent
and explicit-null are not distinguished for the two date fields.  All
other row fields are untouched. -/
theorem update_applies_present_fields
    (s : RepairsStore) (id : Nat) (dto : RepairsService.UpdateDto) (t t' : TicketRow)
    (hfind : s.tickets.find? (fun x => x.id == id) = some t)
    (hok : (RepairsService.update s id dto).2 = .ok t') :
    t'.status = dto.status.getD t.status
    ∧ t'.notes = dto.notes.getD t.notes
    ∧ (dto.scheduledAt = none ∨ dto.scheduledAt = some none → t'.scheduledAt = t.scheduledAt)
    ∧ (dto.scheduledAt ≠ none → dto.scheduledAt ≠ some none →
        t'.scheduledAt = dto.scheduledAt.getD none)
    ∧ (dto.completedAt = none ∨ dto.completedAt = some none → t'.completedAt = t.completedAt)
    ∧ (dto.completedAt ≠ none → dto.completedAt ≠ some none →
        t'.completedAt = dto.completedAt.getD none)
    ∧ t'.problemTitle = dto.problemTitle.getD t.problemTitle
    ∧ t'.problemDescription = dto.problemDescription.getD t.problemDescription
    ∧ t'.location = dto.location.getD t.location
    ∧ t'.urgency = dto.urgency.getD t.urgency
    ∧ t'.id = t.id ∧ t'.ticketCode = t.ticketCode ∧ t'.userId = t.userId
    ∧ t'.createdAt = t.createdAt ∧ t'.cancelledAt = t.cancelledAt := by
  have ht := update_ok_applyUpdateData s id dto t t' hfind hok
  subst ht
  unfold RepairsService.applyUpdateData
  refine ⟨rfl, ?_, ?_, ?_, ?_, ?_, rfl, ?_, rfl, rfl, rfl, rfl, rfl, rfl, rfl⟩
  · cases dto.notes <;> rfl
  · rintro (h | h) <;> simp [h]
  · intro h1 h2
    rcases hd : dto.scheduledAt with _ | x
    · exact absurd hd h1
    · rcases x with _ | d
      · exact absurd hd h2
      · simp [hd]
  · rintro (h | h) <;> simp [h]
  · intro h1 h2
    rcases hd : dto.completedAt with _ | x
    · exact absurd hd h1
    · rcases x with _ | d
      · exact absurd hd h2
      · simp [hd]
  · cases dto.problemDescription <;> rfl

/-- Witness for C2 (amended) at a concrete store and request: present
values (including an explicit-null `notes`) are applied, the truthy
`scheduledAt` is applied, the absent `completedAt` and `location` stay
unchanged. -/
theorem update_applies_present_fields_witness :
    t2W.status = dtoW.status.getD tW.status
    ∧ t2W.notes = dtoW.notes.getD tW.notes
    ∧ (dtoW.scheduledAt = none ∨ dtoW.scheduledAt = some none → t2W.scheduledAt = tW.scheduledAt)
    ∧ (dtoW.scheduledAt ≠ none → dtoW.scheduledAt ≠ some none →
        t2W.scheduledAt = dtoW.scheduledAt.getD none)
    ∧ (dtoW.completedAt = none ∨ dtoW.completedAt = some none → t2W.completedAt = tW.completedAt)
    ∧ (dtoW.completedAt ≠ none → dtoW.completedAt ≠ some none →
        t2W.completedAt = dtoW.completedAt.getD none)
    ∧ t2W.problemTitle = dtoW.problemTitle.getD tW.problemTitle
    ∧ t2W.problemDescription = dtoW.problemDescription.getD tW.problemDescription
    ∧ t2W.location = dtoW.location.getD tW.location
    ∧ t2W.urgency = dtoW.urgency.getD tW.urgency
    ∧ t2W.id = tW.id ∧ t2W.ticketCode = tW.ticketCode ∧ t2W.userId = tW.userId
    ∧ t2W.createdAt = tW.createdAt ∧ t2W.cancelledAt = tW.cancelledAt :=
  update_applies_present_fields w2 1 dtoW tW t2W rfl rfl

/-- Counterexample for C2 as stated: updating ticket 1 (whose stored
`completedAt` is `some 5`) with an explicit-null `completedAt` leaves the
stored value at `some 5` instead of applying the null. -/
theorem update_null_completedAt_ignored_cex :
    ((RepairsService.update w2 1 { completedAt := some none }).2).map (fun x => x.completedAt)
      = .ok (some 5)
    ∧ ((RepairsService.update w2 1 { completedAt := some none }).2).map (fun x => x.completedAt)
      ≠ .ok none := by
  refine ⟨rfl, fun h => ?_⟩
  rw [show ((RepairsService.update w2 1 { completedAt := some none }).2).map
      (fun x => x.completedAt) = Except.ok (some 5) from rfl] at h
  exact Option.noConfusion (Except.ok.inj h)

/-- The store state after `update`: untouched assignee rows when no list
is supplied; delete-all-then-bulk-insert when one is. -/
theorem update_assignees_store (s : RepairsStore) (id : Nat) (dto : RepairsService.UpdateDto)
    (hticket : s.tickets.any (fun x => x.id == id) = true)
    (hfk : (dto.assigneeIds.getD []).all (fun uid => s.userIds.contains uid) = true) :
    (RepairsService.update s id dto).1.assignees
      = match dto.assigneeIds with
        | none => s.assignees
        | some ids => s.assignees.filter (fun a => a.repairTicketId != id)
            ++ ids.map (fun uid => { repairTicketId := id, userId := uid }) := by
  have hsome : (s.tickets.find? (fun x => x.id == id)).isSome := by
    rw [List.find?_isSome]
    exact List.any_eq_true.mp hticket
  rcases hF : s.tickets.find? (fun x => x.id == id) with _ | t
  · rw [hF] at hsome
    simp at hsome
  · rcases hA : dto.assigneeIds with _ | ids
    · simp [RepairsService.update, hA, hF]
    · rw [hA] at hfk
      rw [Option.getD_some] at hfk
      by_cases hE : ids.isEmpty
      · have hnil : ids = [] := List.isEmpty_iff.mp hE
        subst hnil
        simp [RepairsService.update, hA, hF]
      · have hC : ((s.tickets.any fun x => x.id == id)
            && ids.all fun uid => s.userIds.contains uid) = true := by
          rw [Bool.and_eq_true]
          exact ⟨hticket, hfk⟩
        simp only [RepairsService.update, hA, hE, Bool.false_eq_true, if_false]
        rw [if_pos hC]
        simp [hF]

/-- C4: an update without an assignee field leaves the assignee rows
untouched; an update supplying an assignee list deletes every existing
assignee row of the ticket and bulk-inserts the new list, so an empty
list removes all assignees (rows of other tickets are never touched). -/
theorem update_assignee_replacement (s : RepairsStore) (id : Nat)
    (dto : RepairsService.UpdateDto)
    (hticket : s.tickets.any (fun x => x.id == id) = true)
    (hfk : (dto.assigneeIds.getD []).all (fun uid => s.userIds.contains uid) = true) :
    (dto.assigneeIds = none → (RepairsService.update s id dto).1.assignees = s.assignees)
    ∧ (dto.assigneeIds ≠ none →
        ((RepairsService.update s id dto).1.assignees.filter (fun a => a.repairTicketId == id)
          = (dto.assigneeIds.getD []).map (fun uid => { repairTicketId := id, userId := uid }))
        ∧ ((RepairsService.update s id dto).1.assignees.filter (fun a => a.repairTicketId != id)
          = s.assignees.filter (fun a => a.repairTicketId != id))) := by
  have hst := update_assignees_store s id dto hticket hfk
  constructor
  · intro h
    rw [h] at hst
    simpa using hst
  · intro h
    rcases hA : dto.assigneeIds with _ | ids
    · exact absurd hA h
    · rw [hA] at hst
      rw [Option.getD_some]
      have hself : (s.assignees.filter (fun a => a.repairTicketId != id)).filter
          (fun a => a.repairTicketId != id)
          = s.assignees.filter (fun a => a.repairTicketId != id) := by
        rw [List.filter_eq_self]
        intro a ha
        exact (List.mem_filter.mp ha).2
      constructor
      · rw [hst, List.filter_append]
        have h1 : (s.assignees.filter (fun a => a.repairTicketId != id)).filter
            (fun a => a.repairTicketId == id) = [] := by
          rw [List.filter_eq_nil_iff]
          intro a ha hbeq
          have := (List.mem_filter.mp ha).2
          simp_all
        have h2 : (ids.map (fun uid => ({ repairTicketId := id, userId := uid } : AssigneeRow))).filter
            (fun a => a.repairTicketId == id)
            = ids.map (fun uid => ({ repairTicketId := id, userId := uid } : AssigneeRow)) := by
          rw [List.filter_eq_self]
          intro a ha
          obtain ⟨uid, _, huid⟩ := List.mem_map.mp ha
          rw [← huid]
          simp
        rw [h1, h2, List.nil_append]
      · rw [hst, List.filter_append]
        have h2 : (ids.map (fun uid => ({ repairTicketId := id, userId := uid } : AssigneeRow))).filter
            (fun a => a.repairTicketId != id) = [] := by
          rw [List.filter_eq_nil_iff]
          intro a ha hbeq
          obtain ⟨uid, _, huid⟩ := List.mem_map.mp ha
          rw [← huid] at hbeq
          simp at hbeq
        rw [hself, h2, List.append_nil]

/-- Witness for C4: on a concrete store with tickets 1 and 2, replacing
ticket 1's assignees with `[9]`, with `[]`, and omitting the field. -/
theorem update_assignee_replacement_witness :
    ((RepairsService.update w4 1 { assigneeIds := some [9] }).1.assignees.filter
        (fun a => a.repairTicketId == 1)
      = [{ repairTicketId := 1, userId := 9 }])
    ∧ ((RepairsService.update w4 1 { assigneeIds := some [9] }).1.assignees.filter
        (fun a => a.repairTicketId != 1)
      = w4.assignees.filter (fun a => a.repairTicketId != 1))
    ∧ ((RepairsService.update w4 1 { assigneeIds := some [] }).1.assignees.filter
        (fun a => a.repairTicketId == 1) = [])
    ∧ ((RepairsService.update w4 1 { assigneeIds := none }).1.assignees = w4.assignees) :=
  ⟨((update_assignee_replacement w4 1 { assigneeIds := some [9] } rfl rfl).2
      (fun h => Option.noConfusion h)).1,
   ((update_assignee_replacement w4 1 { assigneeIds := some [9] } rfl rfl).2
      (fun h => Option.noConfusion h)).2,
   ((update_assignee_replacement w4 1 { assigneeIds := some [] } rfl rfl).2
      (fun h => Option.noConfusion h)).1,
   (update_assignee_replacement w4 1 { assigneeIds := none } rfl rfl).1 rfl⟩

/-- C3 (amended): a `findAll` call whose `isAdmin` is not truthy and
whose `userId` is supplied and nonzero (truthy) returns only tickets
owned by that user, whatever status/urgency/assignee filters and limit
are requested.  (A missing or zero `userId` is falsy and skips the owner
filter entirely — see the counterexample.) -/
theorem findAll_nonadmin_owner_scoped (s : RepairsStore) (p : RepairsService.FindAllParams)
    (u : Nat) (hadmin : jsBoolTruthy p.isAdmin = false)
    (huser : p.userId = some u) (hu : u ≠ 0) :
    (RepairsService.findAll s p).all (fun t => t.userId == u) = true := by
  have hw : (RepairsService.buildWhere p).userId = some u := by
    unfold RepairsService.buildWhere
    have h1 : (!(jsBoolTruthy p.isAdmin) && jsNumTruthy (some u)) = true := by
      rw [hadmin]
      simp [jsNumTruthy, hu]
    simp only [huser, h1, if_true]
    rcases p.status with _ | st <;> rcases p.urgency with _ | ug <;> split <;> rfl
  rw [List.all_eq_true]
  intro t ht
  have hmem : t ∈ s.tickets.filter (RepairsService.matchesWhere (RepairsService.buildWhere p)) := by
    unfold RepairsService.findAll at ht
    rcases hL : p.limit with _ | n <;> rw [hL] at ht
    · exact ht
    · exact List.mem_of_mem_take ht
  have hmatch := (List.mem_filter.mp hmem).2
  unfold RepairsService.matchesWhere at hmatch
  rw [hw] at hmatch
  simp only [Bool.and_eq_true] at hmatch
  exact hmatch.1.1.1

/-- Witness for C3 (amended): a non-admin call with `userId = 1` on a
store holding only user 1's ticket, with an urgency filter present. -/
theorem findAll_nonadmin_owner_scoped_witness :
    (RepairsService.findAll w3
        { userId := some 1, isAdmin := some false, urgency := some UrgencyLevel.NORMAL }).all
      (fun t => t.userId == 1) = true :=
  findAll_nonadmin_owner_scoped w3
    { userId := some 1, isAdmin := some false, urgency := some UrgencyLevel.NORMAL } 1
    rfl rfl (by decide)

/-- Counterexample for C3 as stated: a non-admin `findAll` with the falsy
caller id `0` skips the owner filter (`!isAdmin && userId` is false), so
the ticket owned by user 1 is returned to caller 0. -/
theorem findAll_nonadmin_zero_userId_cex :
    (RepairsService.findAll w3 { userId := some 0, isAdmin := some false }).all
      (fun t => t.userId == 0) = false := by
  rfl

/-- The `reduce` over the groups is the sum of the group counts. -/
theorem foldl_add_snd {α : Type} (l : List (α × Nat)) (n : Nat) :
    l.foldl (fun acc curr => acc + curr.2) n = n + (l.map Prod.snd).sum := by
  induction l generalizing n with
  | nil => simp
  | cons a l ih =>
    simp only [List.foldl_cons, List.map_cons, List.sum_cons]
    rw [ih]
    omega

/-- A `find` over key-value pairs built from a key list returns the entry
of the key when present. -/
theorem find?_fst_map_pair {α β : Type} [DecidableEq α] (g : α → β) (m : List α) (a : α) :
    (m.map (fun x => (x, g x))).find? (fun c => c.1 == a)
      = if a ∈ m then some (a, g a) else none := by
  induction m with
  | nil => simp
  | cons b m ih =>
    rcases eq_or_ne b a with hb | hb
    · subst hb
      rw [List.map_cons, List.find?_cons_of_pos _ (by simp)]
      simp
    · rw [List.map_cons, List.find?_cons_of_neg _ (by simp [hb])]
      rw [ih]
      simp [List.mem_cons, (Ne.symm hb)]

/-- Each named count in `getStatistics` equals the number of tickets with
that status (in particular it is `0` when no ticket has the status). -/
theorem groupByStatus_getCount (ts : List TicketRow) (st : RepairTicketStatus) :
    (match (RepairsService.groupByStatus ts).find? (fun c => c.1 == st) with
      | some c => c.2
      | none => 0) = RepairsService.statusCount ts st := by
  unfold RepairsService.groupByStatus RepairsService.statusCount
  rw [find?_fst_map_pair]
  by_cases hm : st ∈ (ts.map (fun t => t.status)).dedup
  · simp [hm]
  · rw [if_neg hm]
    rw [List.mem_dedup] at hm
    exact (List.count_eq_zero.mpr hm).symm

/-- The `reduce` total of `getStatistics` counts every ticket row. -/
theorem groupByStatus_total (ts : List TicketRow) :
    (RepairsService.groupByStatus ts).foldl (fun acc curr => acc + curr.2) 0 = ts.length := by
  rw [foldl_add_snd]
  unfold RepairsService.groupByStatus
  rw [List.map_map]
  have hc : (Prod.snd ∘ fun st => (st, (ts.map (fun t => t.status)).count st))
      = fun st => (ts.map (fun t => t.status)).count st := rfl
  rw [hc, List.sum_map_count_dedup_eq_length, List.length_map]
  omega

/-- The five per-status counts partition the ticket table. -/
theorem statusCount_five_sum (ts : List TicketRow) :
    RepairsService.statusCount ts RepairTicketStatus.PENDING
    + RepairsService.statusCount ts RepairTicketStatus.IN_PROGRESS
    + RepairsService.statusCount ts RepairTicketStatus.WAITING_PARTS
    + RepairsService.statusCount ts RepairTicketStatus.COMPLETED
    + RepairsService.statusCount ts RepairTicketStatus.CANCELLED = ts.length := by
  unfold RepairsService.statusCount
  induction ts with
  | nil => simp
  | cons t ts ih =>
    simp only [List.map_cons, List.count_cons, List.length_cons]
    cases t.status <;> simp <;> omega

/-- C6: in every store state, the five per-status counts of
`getStatistics` sum to the returned `total`, and each of the five enum
status keys is present with exactly the number of tickets of that status
(hence `0` when no ticket has it). -/
theorem getStatistics_consistent (s : RepairsStore) :
    ((RepairsService.getStatistics s).pending + (RepairsService.getStatistics s).inProgress
      + (RepairsService.getStatistics s).waitingParts + (RepairsService.getStatistics s).completed
      + (RepairsService.getStatistics s).cancelled = (RepairsService.getStatistics s).total)
    ∧ (RepairsService.getStatistics s).pending
        = RepairsService.statusCount s.tickets RepairTicketStatus.PENDING
    ∧ (RepairsService.getStatistics s).inProgress
        = RepairsService.statusCount s.tickets RepairTicketStatus.IN_PROGRESS
    ∧ (RepairsService.getStatistics s).waitingParts
        = RepairsService.statusCount s.tickets RepairTicketStatus.WAITING_PARTS
    ∧ (RepairsService.getStatistics s).completed
        = RepairsService.statusCount s.tickets RepairTicketStatus.COMPLETED
    ∧ (RepairsService.getStatistics s).cancelled
        = RepairsService.statusCount s.tickets RepairTicketStatus.CANCELLED := by
  have hp := groupByStatus_getCount s.tickets RepairTicketStatus.PENDING
  have hi := groupByStatus_getCount s.tickets RepairTicketStatus.IN_PROGRESS
  have hw := groupByStatus_getCount s.tickets RepairTicketStatus.WAITING_PARTS
  have hc := groupByStatus_getCount s.tickets RepairTicketStatus.COMPLETED
  have hx := groupByStatus_getCount s.tickets RepairTicketStatus.CANCELLED
  have ht := groupByStatus_total s.tickets
  have hs := statusCount_five_sum s.tickets
  unfold RepairsService.getStatistics
  refine ⟨?_, hp, hi, hw, hc, hx⟩
  dsimp only
  rw [hp, hi, hw, hc, hx, ht, hs]

/-- Replacing a user row by one with the same id preserves the id
column of the table. -/
theorem map_id_replace (l : List UserRow) (uid : Nat) (u' : UserRow) (h : u'.id = uid) :
    (l.map (fun v => if v.id == uid then u' else v)).map (fun v => v.id)
      = l.map (fun v => v.id) := by
  rw [List.map_map]
  apply List.map_congr_left
  intro v hv
  by_cases hb : (v.id == uid) = true
  · have hv' : v.id = uid := by simpa using hb
    simp [Function.comp, hb, h, hv']
  · simp [Function.comp, hb]

/-- C7: an OAuth callback whose exchanged provider user id matches an
existing user through a provider-link row returns that user's id and
creates no new user record: the user table's ids and the store's next id
are unchanged. -/
theorem lineCallback_existing_link
    (env : AuthService.CallbackEnv) (s : AuthStore) (code : Option String)
    (tok : AuthService.TokenResponse) (u : UserRow)
    (hcode : jsOrNull code ≠ none)
    (hex : env.exchange (code.getD "") = .ok tok)
    (hfind : s.users.find? (fun v =>
        s.links.any (fun l => l.userId == v.id && l.lineUserId == tok.user_id)) = some u) :
    ((AuthService.lineCallback env s code).2).map (fun r => r.userId) = .ok u.id
    ∧ ((AuthService.lineCallback env s code).1).users.map (fun v => v.id)
        = s.users.map (fun v => v.id)
    ∧ ((AuthService.lineCallback env s code).1).nextUserId = s.nextUserId := by
  unfold AuthService.lineCallback
  simp only [if_neg hcode, hex, hfind]
  by_cases hl : jsOrNull u.lineId = none
  · simp only [if_pos hl, Except.map]
    refine ⟨?_, ?_, ?_⟩ <;>
      first
        | trivial
        | exact map_id_replace s.users u.id _ rfl
  · simp only [if_neg hl, Except.map]
    refine ⟨?_, ?_, ?_⟩ <;> trivial

/-- Witness for C7: the store where user 3 is linked to LINE id `LU1`
and the exchange yields `LU1`; the callback returns user 3's id and the
user table ids stay `[3]`. -/
theorem lineCallback_existing_link_witness :
    ((AuthService.lineCallback envW linkedStore (some "c")).2).map (fun r => r.userId)
      = .ok linkedUser.id
    ∧ ((AuthService.lineCallback envW linkedStore (some "c")).1).users.map (fun v => v.id)
        = linkedStore.users.map (fun v => v.id)
    ∧ ((AuthService.lineCallback envW linkedStore (some "c")).1).nextUserId
        = linkedStore.nextUserId :=
  lineCallback_existing_link envW linkedStore (some "c")
    { access_token := "tok", user_id := "LU1" } linkedUser (by decide) rfl rfl

/-- C8: `updateProfile` applies exactly the supplied truthy fields: a
field that is absent or supplied as the empty string leaves the stored
value unchanged, a non-empty supplied value is applied; identity fields
(`id`, `email`, `role`, the password hash, `createdAt`) are untouched,
and only the matched row of the user table is replaced. -/
theorem updateProfile_truthy_only
    (s : AuthStore) (uid : Nat) (d : AuthService.UpdateProfileDto) (u u' : UserRow)
    (hfind : s.users.find? (fun v => v.id == uid) = some u)
    (hok : (AuthService.updateProfile s uid d).2 = .ok u') :
    u'.id = u.id ∧ u'.email = u.email ∧ u'.role = u.role ∧ u'.password = u.password
    ∧ u'.createdAt = u.createdAt
    ∧ (d.name = none ∨ d.name = some "" → u'.name = u.name)
    ∧ (d.name ≠ none → d.name ≠ some "" → u'.name = d.name.getD u.name)
    ∧ (d.department = none ∨ d.department = some "" → u'.department = u.department)
    ∧ (d.department ≠ none → d.department ≠ some "" → u'.department = d.department)
    ∧ (d.phoneNumber = none ∨ d.phoneNumber = some "" → u'.phoneNumber = u.phoneNumber)
    ∧ (d.phoneNumber ≠ none → d.phoneNumber ≠ some "" → u'.phoneNumber = d.phoneNumber)
    ∧ (d.lineId = none ∨ d.lineId = some "" → u'.lineId = u.lineId)
    ∧ (d.lineId ≠ none → d.lineId ≠ some "" → u'.lineId = d.lineId)
    ∧ (AuthService.updateProfile s uid d).1.users
        = s.users.map (fun v => if v.id == uid then u' else v) := by
  unfold AuthService.updateProfile at hok ⊢
  rw [hfind] at hok ⊢
  have hu := (Except.ok.inj hok).symm
  subst hu
  refine ⟨rfl, rfl, rfl, rfl, rfl, ?_, ?_, ?_, ?_, ?_, ?_, ?_, ?_, rfl⟩
  · rintro (h | h) <;> simp [jsOrNull, h]
  · intro h1 h2
    rcases hd : d.name with _ | v
    · exact absurd hd h1
    · have hv : v ≠ "" := by
        intro he
        exact h2 (by rw [hd, he])
      simp [jsOrNull, hd, hv]
  · rintro (h | h) <;> simp [jsOrNull, h]
  · intro h1 h2
    rcases hd : d.department with _ | v
    · exact absurd hd h1
    · have hv : v ≠ "" := by
        intro he
        exact h2 (by rw [hd, he])
      simp [jsOrNull, hd, hv]
  · rintro (h | h) <;> simp [jsOrNull, h]
  · intro h1 h2
    rcases hd : d.phoneNumber with _ | v
    · exact absurd hd h1
    · have hv : v ≠ "" := by
        intro he
        exact h2 (by rw [hd, he])
      simp [jsOrNull, hd, hv]
  · rintro (h | h) <;> simp [jsOrNull, h]
  · intro h1 h2
    rcases hd : d.lineId with _ | v
    · exact absurd hd h1
    · have hv : v ≠ "" := by
        intro he
        exact h2 (by rw [hd, he])
      simp [jsOrNull, hd, hv]

/-- Witness for C8 at a concrete call: a non-empty `name` is applied,
an empty-string `department` is silently ignored, the absent
`phoneNumber` is untouched, `lineId` is applied. -/
theorem updateProfile_truthy_only_witness :
    profUserW.id = sampleUser.id ∧ profUserW.email = sampleUser.email
    ∧ profUserW.role = sampleUser.role ∧ profUserW.password = sampleUser.password
    ∧ profUserW.createdAt = sampleUser.createdAt
    ∧ (profDtoW.name = none ∨ profDtoW.name = some "" → profUserW.name = sampleUser.name)
    ∧ (profDtoW.name ≠ none → profDtoW.name ≠ some "" →
        profUserW.name = profDtoW.name.getD sampleUser.name)
    ∧ (profDtoW.department = none ∨ profDtoW.department = some "" →
        profUserW.department = sampleUser.department)
    ∧ (profDtoW.department ≠ none → profDtoW.department ≠ some "" →
        profUserW.department = profDtoW.department)
    ∧ (profDtoW.phoneNumber = none ∨ profDtoW.phoneNumber = some "" →
        profUserW.phoneNumber = sampleUser.phoneNumber)
    ∧ (profDtoW.phoneNumber ≠ none → profDtoW.phoneNumber ≠ some "" →
        profUserW.phoneNumber = profDtoW.phoneNumber)
    ∧ (profDtoW.lineId = none ∨ profDtoW.lineId = some "" → profUserW.lineId = sampleUser.lineId)
    ∧ (profDtoW.lineId ≠ none → profDtoW.lineId ≠ some "" → profUserW.lineId = profDtoW.lineId)
    ∧ (AuthService.updateProfile sampleAuthStore 1 profDtoW).1.users
        = sampleAuthStore.users.map (fun v => if v.id == 1 then profUserW else v) :=
  updateProfile_truthy_only sampleAuthStore 1 profDtoW sampleUser profUserW rfl rfl

end RepairShop
